import Mathlib

/-!
Shallow embedding of `capnpy/blob.py` (the pointer-resolution and accessor
core of the capnpy message reader).  The buffer is a list of bytes
(`Fin 256`), offsets are Python integers (`Int`), and every fallible
operation returns `Except BlobError _`.  Assertion failures and index/
unpack errors of the Python code are mapped to the error taxonomy of the
design (`BoundsError`, `DecodeError`, `TypeMismatchError`).

The modules `capnpy/ptr.py`, `capnpy/type.py`, `capnpy/list.py` and
`capnpy/struct_.py` are imported by `blob.py` but are not part of the
given sources; the definitions that stand in for them are explicitly
marked `Modelled from the spec:` below and follow the spec's wire-layout
and construction-contract wording.
-/

/-- A byte: the elements of a Python `str`/`bytes` buffer. -/
abbrev Byte := Fin 256

/-- Python slicing `l[s:e]` (step 1) over a byte buffer: negative indices
count from the end of the sequence, then both endpoints are clamped into
`[0, len]`. -/
def pySlice {α : Type} (l : List α) (s e : Int) : List α :=
  let n : Int := l.length
  let s1 : Int := if s < 0 then max (s + n) 0 else min s n
  let e1 : Int := if e < 0 then max (e + n) 0 else min e n
  (l.drop s1.toNat).take (e1 - s1).toNat

/-- Little-endian value of a byte string, least significant byte first
(the order `struct.unpack` with format prefix `<` uses). -/
def leNat : List Byte → Nat
  | [] => 0
  | b :: rest => b.val + 256 * leNat rest

/-- Two's-complement reinterpretation of a `width`-byte unsigned value as a
signed one, as `struct.unpack` does for the signed formats. -/
def toSignedVal (v : Nat) (width : Nat) : Int :=
  if v < 2 ^ (8 * width - 1) then (v : Int) else (v : Int) - 2 ^ (8 * width)

/-- A fixed-width primitive type descriptor: byte width plus signedness. -/
structure PrimType where
  width : Nat
  signed : Bool
deriving DecidableEq

namespace Types

/-- Modelled from the spec: `capnpy/type.py` (`Types.uint8`) is not under
src/; unsigned 8-bit little-endian primitive (struct format `B`). -/
def uint8 : PrimType := ⟨1, false⟩

/-- Modelled from the spec: `capnpy/type.py` (`Types.int16`) is not under
src/; signed 16-bit little-endian primitive (struct format `h`),
the representation `read_enum` reads (§4.3). -/
def int16 : PrimType := ⟨2, true⟩

/-- Modelled from the spec: `capnpy/type.py` (`Types.int64`) is not under
src/; signed 64-bit little-endian primitive (struct format `q`), the
representation a raw pointer word is read with. -/
def int64 : PrimType := ⟨8, true⟩

end Types

/-- Decode a little-endian byte string as the numeric value of the given
primitive type, mirroring `struct.unpack_from` for `B`/`h`/`q`-style
fixed-width formats. -/
def decodePrim (bytes : List Byte) (t : PrimType) : Int :=
  if t.signed then toSignedVal (leNat bytes) t.width else (leNat bytes : Int)

/-- The error taxonomy of the design (§7).  Python-level failures are
mapped onto it: `struct.error` from a failed bounds check and the
`IndexError` of a segment-table lookup become `boundsError`; failures of
the `assert`s on pointer kinds become `decodeError`; the failed
`assert size_tag == ListPtr.SIZE_8` of a text/data read becomes
`typeMismatchError`. -/
inductive BlobError where
  | boundsError
  | decodeError
  | typeMismatchError
  | indexError
deriving DecidableEq

instance {ε α : Type} [DecidableEq ε] [DecidableEq α] : DecidableEq (Except ε α) := fun x y =>
  match x, y with
  | .ok a, .ok b =>
    if h : a = b then isTrue (by rw [h]) else isFalse (fun c => by cases c; exact h rfl)
  | .ok _, .error _ => isFalse (fun c => by cases c)
  | .error _, .ok _ => isFalse (fun c => by cases c)
  | .error a, .error b =>
    if h : a = b then isTrue (by rw [h]) else isFalse (fun c => by cases c; exact h rfl)

/-- The `Blob` accessor of `blob.py`: a view given by a shared buffer, an
absolute byte offset and a shared segment table (`_buf`, `_offset`,
`_segment_offsets`). -/
structure Blob where
  buf : List Byte
  offset : Int
  segs : List Int
deriving DecidableEq

/-- `Blob.from_buffer`: stores the triple and asserts
`offset < len(buf)`; the failed assertion is the construction-contract
`BoundsError` of §6. -/
def Blob.from_buffer (buf : List Byte) (offset : Int) (segs : List Int) :
    Except BlobError Blob :=
  if offset < (buf.length : Int) then .ok ⟨buf, offset, segs⟩ else .error .boundsError

/-- `Blob._read_primitive`: `struct.unpack_from('<'+t.fmt, buf, offset+off)`.
CPython's `unpack_from` first adds `len(buf)` to a negative offset, then
fails (here: `boundsError`) unless `0 ≤ offset` and
`len(buf) - offset ≥ width`; otherwise it decodes the little-endian
fixed-width value at that position. -/
def Blob.read_primitive (b : Blob) (off : Int) (t : PrimType) : Except BlobError Int :=
  let n : Int := b.buf.length
  let a0 : Int := b.offset + off
  let a : Int := if a0 < 0 then a0 + n else a0
  if a < 0 ∨ n - a < (t.width : Int) then .error .boundsError
  else .ok (decodePrim ((b.buf.drop a.toNat).take t.width) t)

/-- `Blob._read_bit`: read one byte and test it against a bitmask. -/
def Blob.read_bit (b : Blob) (off : Int) (bitmask : Nat) : Except BlobError Bool :=
  match b.read_primitive off Types.uint8 with
  | .error e => .error e
  | .ok v => .ok (decide (v.toNat &&& bitmask ≠ 0))

/-- `Blob._read_enum`: read a signed 16-bit value and hand it to the
caller-supplied enum constructor `enumtype` (generated code, an external
collaborator per §1; modelled as an arbitrary total function — the core
itself performs no range check on the code). -/
def Blob.read_enum {α : Type} (b : Blob) (off : Int) (enumtype : Int → α) :
    Except BlobError α :=
  match b.read_primitive off Types.int16 with
  | .error e => .error e
  | .ok v => .ok (enumtype v)

/-- `Blob._read_ptr`: the raw pointer word at `off`, read as a signed
64-bit little-endian integer. -/
def Blob.read_ptr (b : Blob) (off : Int) : Except BlobError Int :=
  b.read_primitive off Types.int64

/-- The unsigned 64-bit view of a pointer word, for bit-field extraction. -/
def toU64 (w : Int) : Nat := (w % (2 ^ 64 : Int)).toNat

/-- Modelled from the spec: `capnpy/ptr.py` (`Ptr.kind`) is not under
src/; the low 2 bits of the word select the pointer kind (§4.1):
0 = struct, 1 = list, 2 = far, 3 = reserved. -/
def ptrKind (u : Nat) : Nat := u % 4

/-- Modelled from the spec: `capnpy/ptr.py` (`Ptr.offset`) is not under
src/; bits [2:32) of a struct/list pointer word are a signed 30-bit
word-granularity displacement (§4.1). -/
def ptrRel (u : Nat) : Int :=
  let r : Nat := (u >>> 2) % 2 ^ 30
  if r < 2 ^ 29 then (r : Int) else (r : Int) - 2 ^ 30

/-- Modelled from the spec: `capnpy/ptr.py` (`Ptr.deref`) is not under
src/; the displacement is measured from the word immediately following
the pointer (§3), so the content of the pointer read at byte offset
`off` starts at `off + (rel + 1) * 8`. -/
def ptrDeref (off : Int) (u : Nat) : Int := off + (ptrRel u + 1) * 8

/-- Modelled from the spec: `capnpy/ptr.py` (`StructPtr.data_size`) is not
under src/; bits [32:48) of a struct pointer word are the data-section
word count (§4.1). -/
def structDataSize (u : Nat) : Nat := (u >>> 32) % 2 ^ 16

/-- Modelled from the spec: `capnpy/ptr.py` (`StructPtr.ptrs_size`) is not
under src/; bits [48:64) of a struct pointer word are the pointer-section
word count (§4.1). -/
def structPtrsSize (u : Nat) : Nat := (u >>> 48) % 2 ^ 16

/-- Modelled from the spec: `capnpy/ptr.py` (`ListPtr.size_tag`) is not
under src/; bits [32:35) of a list pointer word are the size tag (§4.1),
in the §3 `SizeTag` order — one-byte elements (`ListPtr.SIZE_8`) are
tag 2. -/
def listSizeTag (u : Nat) : Nat := (u >>> 32) % 8

/-- Modelled from the spec: `capnpy/ptr.py` (`ListPtr.item_count`) is not
under src/; bits [35:64) of a list pointer word are the raw element
count (§4.1). -/
def listItemCount (u : Nat) : Nat := (u >>> 35) % 2 ^ 29

/-- Modelled from the spec: `capnpy/ptr.py` (`FarPtr.landing_pad`) is not
under src/; bit 2 of a far pointer word is the double-far flag (§6). -/
def farDouble (u : Nat) : Bool := (u >>> 2) % 2 = 1

/-- Modelled from the spec: `capnpy/ptr.py` (`FarPtr.offset`) is not under
src/; bits [3:32) of a far pointer word are the word offset within the
target segment (§6). -/
def farOffset (u : Nat) : Nat := (u >>> 3) % 2 ^ 29

/-- Modelled from the spec: `capnpy/ptr.py` (`FarPtr.segment`) is not
under src/; bits [32:64) of a far pointer word are the segment id (§6). -/
def farSegment (u : Nat) : Nat := (u >>> 32) % 2 ^ 32

/-- Modelled from the spec: `capnpy/ptr.py` (`FarPtr.follow`) is not under
src/; far-pointer resolution per §4.2.  It returns the blob-relative
offset of the landing pad together with the real (non-far) pointer word
found there, so that the caller's subsequent `ptrDeref` lands at the
content.  A segment id outside the table is a `BoundsError`; a landing
pad that is itself a far pointer where not permitted is a `DecodeError`.
For a double-far pad, word 0 is a far-style content descriptor and
word 1 the real pointer with zero relative offset; the returned offset
is placed one word before the resolved content so that the uniform
`ptrDeref` (which measures from the word after the pointer) yields the
content exactly at the resolved location. -/
def farFollow (b : Blob) (u : Nat) : Except BlobError (Int × Nat) :=
  if hseg : farSegment u < b.segs.length then
    let base := b.segs.get ⟨farSegment u, hseg⟩
    let pad : Int := base + (farOffset u : Int) * 8 - b.offset
    match b.read_ptr pad with
    | .error e => .error e
    | .ok w1 =>
      if farDouble u then
        match b.read_ptr (pad + 8) with
        | .error e => .error e
        | .ok w2 =>
          if ptrKind (toU64 w2) = 2 then .error .decodeError
          else if hseg2 : farSegment (toU64 w1) < b.segs.length then
            let base2 := b.segs.get ⟨farSegment (toU64 w1), hseg2⟩
            let content : Int := base2 + (farOffset (toU64 w1) : Int) * 8 - b.offset
            .ok (content - 8, toU64 w2)
          else .error .boundsError
      else
        if ptrKind (toU64 w1) = 2 then .error .decodeError
        else .ok (pad, toU64 w1)
  else .error .boundsError

/-- The far-resolution step shared by `_deref_ptrstruct` and
`_deref_ptrlist`: a far pointer is specialized and followed, any other
pointer is kept as is together with the offset it was read at. -/
def Blob.resolve_far (b : Blob) (off : Int) (u : Nat) : Except BlobError (Int × Nat) :=
  if ptrKind u = 2 then farFollow b u else .ok (off, u)

/-- `Blob._deref_ptrstruct`: read the pointer word at `off`; the all-zero
word yields `none`; a far pointer is followed; the result must be a
struct pointer (the failed `assert ptr.kind == StructPtr.KIND` is a
`DecodeError`), and its content offset (relative to the blob's own
offset) is returned. -/
def Blob.deref_ptrstruct (b : Blob) (off : Int) : Except BlobError (Option Int) :=
  match b.read_ptr off with
  | .error e => .error e
  | .ok w =>
    if w = 0 then .ok none
    else
      match b.resolve_far off (toU64 w) with
      | .error e => .error e
      | .ok (o, u) =>
        if ptrKind u = 0 then .ok (some (ptrDeref o u)) else .error .decodeError

/-- `Blob._deref_ptrlist`: read the pointer word at `off`; the all-zero
word yields `none` (the Python `(None, None, None)`); a far pointer is
followed; the result must be a list pointer (the failed
`assert ptr.kind == ListPtr.KIND` is a `DecodeError`); returns the
blob-relative offset of the first item, the size tag and the raw item
count. -/
def Blob.deref_ptrlist (b : Blob) (off : Int) :
    Except BlobError (Option (Int × Nat × Nat)) :=
  match b.read_ptr off with
  | .error e => .error e
  | .ok w =>
    if w = 0 then .ok none
    else
      match b.resolve_far off (toU64 w) with
      | .error e => .error e
      | .ok (o, u) =>
        if ptrKind u = 1 then
          .ok (some (ptrDeref o u, listSizeTag u, listItemCount u))
        else .error .decodeError

/-- `Blob._read_struct`: dereference the struct pointer at `off` and build
the target accessor via `from_buffer` on the same buffer and segment
table.  The `structcls` class argument only selects the Python type of
the result; construction itself is the inherited `Blob.from_buffer`. -/
def Blob.read_struct (b : Blob) (off : Int) : Except BlobError (Option Blob) :=
  match b.deref_ptrstruct off with
  | .error e => .error e
  | .ok none => .ok none
  | .ok (some so) =>
    match Blob.from_buffer b.buf (b.offset + so) b.segs with
    | .error e => .error e
    | .ok nb => .ok (some nb)

/-- The list accessor: buffer, absolute offset and segment table plus the
element size tag and item count recorded from the originating pointer. -/
structure CapList where
  buf : List Byte
  offset : Int
  segs : List Int
  size_tag : Nat
  item_count : Nat
deriving DecidableEq

/-- Modelled from the spec: `capnpy/list.py` (`List.from_buffer`) is not
under src/.  Per the construction contract of §6 the accessor triple
must satisfy `offset < len(buf)`, else `BoundsError`; the list accessor
additionally records the element size tag and item count supplied by the
resolving pointer (§4.4).  The trailing `item_type` argument of the
Python signature (a class used only for element access, also outside
src/) is not modelled. -/
def CapList.from_buffer (buf : List Byte) (offset : Int) (segs : List Int)
    (size_tag item_count : Nat) : Except BlobError CapList :=
  if offset < (buf.length : Int) then .ok ⟨buf, offset, segs, size_tag, item_count⟩
  else .error .boundsError

/-- `Blob._read_list`: dereference the list pointer at `off` and build the
list accessor on the same buffer and segment table, carrying the size
tag and item count from the pointer. -/
def Blob.read_list (b : Blob) (off : Int) : Except BlobError (Option CapList) :=
  match b.deref_ptrlist off with
  | .error e => .error e
  | .ok none => .ok none
  | .ok (some (o, size_tag, item_count)) =>
    match CapList.from_buffer b.buf (b.offset + o) b.segs size_tag item_count with
    | .error e => .error e
    | .ok l => .ok (some l)

/-- `Blob._read_string`: dereference as a list; `none` for the null
pointer; require one-byte elements (`size_tag == ListPtr.SIZE_8`, i.e.
tag 2 — the failed assert is the `TypeMismatchError` of §7); return the
Python slice `buf[start : start + item_count - 1]`, dropping the
trailing NUL terminator. -/
def Blob.read_string (b : Blob) (off : Int) : Except BlobError (Option (List Byte)) :=
  match b.deref_ptrlist off with
  | .error e => .error e
  | .ok none => .ok none
  | .ok (some (o, size_tag, item_count)) =>
    if size_tag = 2 then
      .ok (some (pySlice b.buf (b.offset + o) (b.offset + o + (item_count : Int) - 1)))
    else .error .typeMismatchError

/-- `Blob._read_data`: as `_read_string` but returning the full slice
`buf[start : start + item_count]` (no NUL trimming). -/
def Blob.read_data (b : Blob) (off : Int) : Except BlobError (Option (List Byte)) :=
  match b.deref_ptrlist off with
  | .error e => .error e
  | .ok none => .ok none
  | .ok (some (o, size_tag, item_count)) =>
    if size_tag = 2 then
      .ok (some (pySlice b.buf (b.offset + o) (b.offset + o + (item_count : Int))))
    else .error .typeMismatchError

/-- `Blob._read_group`: `groupcls.from_buffer(self._buf, self._offset,
self._segment_offsets)` — the group accessor is built at the very same
offset, buffer and segment table, with no pointer dereference.  The
`groupcls` class argument only selects the Python type; construction is
the inherited `Blob.from_buffer`. -/
def Blob.read_group (b : Blob) : Except BlobError Blob :=
  Blob.from_buffer b.buf b.offset b.segs

/-- The generic struct accessor: the accessor triple plus the data/pointer
word counts taken from the resolving pointer itself. -/
structure GenericStruct where
  buf : List Byte
  offset : Int
  segs : List Int
  data_size : Nat
  ptrs_size : Nat
deriving DecidableEq

/-- Modelled from the spec: `capnpy/struct_.py`
(`GenericStruct.from_buffer_and_size`) is not under src/.  Per the
construction contract of §6 the accessor triple must satisfy
`offset < len(buf)`, else `BoundsError`; the generic struct accessor
additionally records the data/pointer word counts supplied by the
resolving pointer. -/
def GenericStruct.from_buffer_and_size (buf : List Byte) (offset : Int)
    (segs : List Int) (data_size ptrs_size : Nat) : Except BlobError GenericStruct :=
  if offset < (buf.length : Int) then .ok ⟨buf, offset, segs, data_size, ptrs_size⟩
  else .error .boundsError

/-- The result of a generic pointer follow: either a generic struct
accessor or a generic list accessor. -/
inductive GenericRef where
  | structRef (g : GenericStruct)
  | listRef (l : CapList)
deriving DecidableEq

/-- The buffer held by a generic accessor. -/
def GenericRef.bufOf : GenericRef → List Byte
  | .structRef g => g.buf
  | .listRef l => l.buf

/-- The segment table held by a generic accessor. -/
def GenericRef.segsOf : GenericRef → List Int
  | .structRef g => g.segs
  | .listRef l => l.segs

/-- `Blob._follow_generic_pointer`: read the raw pointer word at
`ptr_offset`; the all-zero word yields `none`; otherwise the word is
specialized and dereferenced, and dispatch is on its own kind bits: a
struct pointer builds a `GenericStruct` sized from the pointer's
data/pointer word counts, a list pointer builds a `List` carrying the
pointer's size tag and item count, and any other kind hits
`assert False, 'Unkwown pointer kind'` (a `DecodeError`).  Note that,
unlike `_deref_ptrstruct`/`_deref_ptrlist`, this operation performs no
far-pointer resolution. -/
def Blob.follow_generic_pointer (b : Blob) (ptr_offset : Int) :
    Except BlobError (Option GenericRef) :=
  match b.read_ptr ptr_offset with
  | .error e => .error e
  | .ok w =>
    if w = 0 then .ok none
    else
      if ptrKind (toU64 w) = 0 then
        match GenericStruct.from_buffer_and_size b.buf
            (b.offset + ptrDeref ptr_offset (toU64 w)) b.segs
            (structDataSize (toU64 w)) (structPtrsSize (toU64 w)) with
        | .error e => .error e
        | .ok g => .ok (some (.structRef g))
      else if ptrKind (toU64 w) = 1 then
        match CapList.from_buffer b.buf
            (b.offset + ptrDeref ptr_offset (toU64 w)) b.segs
            (listSizeTag (toU64 w)) (listItemCount (toU64 w)) with
        | .error e => .error e
        | .ok l => .ok (some (.listRef l))
      else .error .decodeError

/-- The little-endian fixed-width value "at a position" of the buffer, as
the spec describes it: the byte at `s + i` contributes with weight
`256 ^ i`, and for signed types the result is the two's-complement
reading of that sum.  Stated independently of the `drop`/`take`
recursion of `Blob.read_primitive`. -/
def leSpecValue (l : List Byte) (s : Nat) (t : PrimType) : Int :=
  if t.signed then
    toSignedVal (∑ i in Finset.range t.width, (l.getD (s + i) 0).val * 256 ^ i) t.width
  else ((∑ i in Finset.range t.width, (l.getD (s + i) 0).val * 256 ^ i : Nat) : Int)

/-! Concrete buffers used by the witnesses and counterexamples.  Pointer
words are spelled as little-endian byte lists; e.g. `[1,0,0,0,26,0,0,0]`
is the word `1 + 26·2^32`: kind 1 (list), relative offset 0, size tag
`26 % 8 = 2` (one-byte elements), item count `26 >>> 3 = 3`. -/

/-- A blob whose pointer word at offset 0 is the all-zero (null) word. -/
def nullBlob : Blob := ⟨List.replicate 8 0, 0, []⟩

/-- A 4-byte buffer for exercising primitive reads. -/
def primBlob : Blob := ⟨[1, 2, 3, 4], 0, []⟩

/-- A list pointer (kind 1, offset 0) with size tag 2 and item count 0:
a one-byte-element list of raw element count zero, whose body starts
right at the end of the buffer. -/
def emptyTextBlob : Blob := ⟨[1, 0, 0, 0, 2, 0, 0, 0], 0, []⟩

/-- A list pointer with size tag 2 and item count 2 whose two-byte body
lies entirely beyond the end of the 8-byte buffer. -/
def truncatedTextBlob : Blob := ⟨[1, 0, 0, 0, 18, 0, 0, 0], 0, []⟩

/-- A list pointer with size tag 2 and item count 3 followed by the body
`"hi\x00"`: bytes 104, 105 and the NUL terminator. -/
def textBlob : Blob := ⟨[1, 0, 0, 0, 26, 0, 0, 0, 104, 105, 0], 0, []⟩

/-- A far pointer (kind 2, double-far flag 0, word offset 1, segment 0)
whose landing pad at byte 8 holds a struct pointer (kind 0, offset 0,
one data word) with content at byte 16. -/
def farBlob : Blob :=
  ⟨[10, 0, 0, 0, 0, 0, 0, 0, 0, 0, 0, 0, 1, 0, 0, 0, 0, 0, 0, 0, 0, 0, 0, 0], 0, [0]⟩

/-- A struct pointer (kind 0, offset 0, one data word, no pointer words)
followed by its one-word data section. -/
def structPtrBlob : Blob :=
  ⟨[0, 0, 0, 0, 1, 0, 0, 0, 0, 0, 0, 0, 0, 0, 0, 0], 0, []⟩

/-- A list pointer with size tag 5 (eight-byte elements) and item count 1:
a legal list pointer that is not a one-byte-element list. -/
def wrongTagBlob : Blob := ⟨[1, 0, 0, 0, 13, 0, 0, 0], 0, []⟩

/-- A one-byte blob with a nonempty segment table, for observing that the
group accessor aliases the full triple. -/
def groupBlob : Blob := ⟨[0], 0, [5]⟩

/-- A two-byte buffer holding the little-endian signed 16-bit value
`-32768` (an arbitrary enum code). -/
def enumBlob : Blob := ⟨[0, 128], 0, []⟩

/-- The identity enum constructor: the caller-side mapping that keeps the
raw code. -/
def idEnum : Int → Int := fun i => i

/-- A 32-byte buffer with a struct pointer at word 0 (content at byte 8),
a one-byte-element list pointer at word 1 (body at byte 16) and a
struct pointer at word 2 (content at byte 24). -/
def multiBuf : List Byte :=
  [0, 0, 0, 0, 1, 0, 0, 0,
   1, 0, 0, 0, 10, 0, 0, 0,
   0, 0, 0, 0, 1, 0, 0, 0,
   0, 0, 0, 0, 0, 0, 0, 0]

/-- The blob over `multiBuf`, with every kind of derived accessor
reachable. -/
def multiBlob : Blob := ⟨multiBuf, 0, []⟩

/-- A list pointer word with relative offset `-1`, size tag 2 and item
count 0: the degenerate one-byte-element empty list whose body starts at
absolute offset 0, where the Python slice `buf[0:-1]` wraps around. -/
def wrapSliceBlob : Blob := ⟨[253, 255, 255, 255, 2, 0, 0, 0], 0, []⟩

/-! Helper lemmas. -/

/-- Python slicing with both endpoints inside `[0, len]` and in order is
plain drop/take. -/
theorem pySlice_of_bounds {α : Type} (l : List α) (s e : Int)
    (h0 : 0 ≤ s) (hse : s ≤ e) (he : e ≤ (l.length : Int)) :
    pySlice l s e = (l.drop s.toNat).take (e - s).toNat := by
  simp only [pySlice]
  rw [if_neg (by omega), if_neg (by omega),
    min_eq_left (le_trans hse he), min_eq_left he]

/-- A Python slice with `0 ≤ e ≤ s` is empty. -/
theorem pySlice_empty {α : Type} (l : List α) (s e : Int)
    (h0 : 0 ≤ e) (hes : e ≤ s) : pySlice l s e = [] := by
  simp only [pySlice]
  rw [if_neg (by omega), if_neg (by omega)]
  have h1 : min e (l.length : Int) ≤ min s (l.length : Int) :=
    min_le_min hes (le_refl _)
  rw [Int.toNat_of_nonpos (by omega), List.take_zero]

/-- A byte string's little-endian value is below `256 ^ length`. -/
theorem leNat_lt (l : List Byte) : leNat l < 256 ^ l.length := by
  induction l with
  | nil => simp [leNat]
  | cons b rest ih =>
    simp only [leNat, List.length_cons, pow_succ]
    have hb := b.isLt
    omega

/-- The little-endian value of the in-bounds window `[s, s + w)` of a
buffer equals the byte-indexed weighted sum the spec describes. -/
theorem leNat_drop_take (l : List Byte) :
    ∀ (w s : Nat), s + w ≤ l.length →
      leNat ((l.drop s).take w) =
        ∑ i in Finset.range w, (l.getD (s + i) 0).val * 256 ^ i := by
  intro w
  induction w with
  | zero => intro s _; simp [leNat]
  | succ w ih =>
    intro s h
    have hs : s < l.length := by omega
    rw [List.drop_eq_getElem_cons hs]
    show leNat (l[s] :: (l.drop (s + 1)).take w) = _
    simp only [leNat]
    rw [ih (s + 1) (by omega), Finset.sum_range_succ']
    simp only [add_zero, pow_zero, mul_one]
    rw [List.getD_eq_getElem l 0 hs]
    rw [Finset.mul_sum]
    have hterm : ∀ i, (l.getD (s + (i + 1)) 0).val * 256 ^ (i + 1) =
        256 * ((l.getD (s + 1 + i) 0).val * 256 ^ i) := by
      intro i
      have : s + (i + 1) = s + 1 + i := by omega
      rw [this, pow_succ]
      ring
    rw [Finset.sum_congr rfl (fun i _ => hterm i)]
    omega

/-- Inversion of a successful `Blob.from_buffer`: the accessor stores
exactly the given triple. -/
theorem blob_from_buffer_inv {buf : List Byte} {off : Int} {segs : List Int}
    {b : Blob} (h : Blob.from_buffer buf off segs = .ok b) :
    b = ⟨buf, off, segs⟩ := by
  unfold Blob.from_buffer at h
  split at h
  · exact (Except.ok.inj h).symm
  · exact Except.noConfusion h

/-- Inversion of a successful `CapList.from_buffer`. -/
theorem caplist_from_buffer_inv {buf : List Byte} {off : Int} {segs : List Int}
    {st ic : Nat} {l : CapList}
    (h : CapList.from_buffer buf off segs st ic = .ok l) :
    l = ⟨buf, off, segs, st, ic⟩ := by
  unfold CapList.from_buffer at h
  split at h
  · exact (Except.ok.inj h).symm
  · exact Except.noConfusion h

/-- Inversion of a successful `GenericStruct.from_buffer_and_size`. -/
theorem genstruct_from_buffer_inv {buf : List Byte} {off : Int}
    {segs : List Int} {ds ps : Nat} {g : GenericStruct}
    (h : GenericStruct.from_buffer_and_size buf off segs ds ps = .ok g) :
    g = ⟨buf, off, segs, ds, ps⟩ := by
  unfold GenericStruct.from_buffer_and_size at h
  split at h
  · exact (Except.ok.inj h).symm
  · exact Except.noConfusion h

/-- A decoded signed 16-bit value lies in `[-32768, 32768)`. -/
theorem decodePrim_int16_range (bytes : List Byte) (hl : bytes.length ≤ 2) :
    -32768 ≤ decodePrim bytes Types.int16 ∧ decodePrim bytes Types.int16 < 32768 := by
  have h1 := leNat_lt bytes
  have h2 : (256 : Nat) ^ bytes.length ≤ 256 ^ 2 :=
    Nat.pow_le_pow_right (by norm_num) hl
  have h3 : leNat bytes < 65536 := by
    calc leNat bytes < 256 ^ bytes.length := h1
    _ ≤ 256 ^ 2 := h2
    _ = 65536 := by norm_num
  simp only [decodePrim, Types.int16, toSignedVal]
  norm_num
  split <;> omega

/-! The claims. -/

/-- C1: for every read of a struct, list, text or data field, if the
8-byte pointer word at the given offset is the all-zero (null) word, the
operation returns `none` — it neither raises an error nor constructs an
accessor. -/
theorem null_pointer_yields_none (b : Blob) (off : Int)
    (h : b.read_ptr off = Except.ok 0) :
    b.read_struct off = .ok none ∧ b.read_list off = .ok none ∧
    b.read_string off = .ok none ∧ b.read_data off = .ok none := by
  refine ⟨?_, ?_, ?_, ?_⟩ <;>
    simp [Blob.read_struct, Blob.read_list, Blob.read_string, Blob.read_data,
      Blob.deref_ptrstruct, Blob.deref_ptrlist, h]

/-- Witness for C1: an all-zero pointer word on a concrete buffer. -/
theorem null_pointer_yields_none_witness :
    nullBlob.read_ptr 0 = Except.ok 0 ∧
    (nullBlob.read_struct 0 = .ok none ∧ nullBlob.read_list 0 = .ok none ∧
     nullBlob.read_string 0 = .ok none ∧ nullBlob.read_data 0 = .ok none) :=
  ⟨by decide, null_pointer_yields_none nullBlob 0 (by decide)⟩

/-- C2: a primitive read whose computed absolute byte range
`accessor offset + field offset + width` exceeds the buffer length fails
with `BoundsError` (it never reads past the buffer and never aborts);
otherwise it returns the little-endian fixed-width value at that
position. -/
theorem read_primitive_bounds_check (b : Blob) (off : Int) (t : PrimType)
    (h0 : 0 ≤ b.offset + off) :
    ((b.buf.length : Int) < b.offset + off + t.width →
      b.read_primitive off t = .error .boundsError) ∧
    (b.offset + off + t.width ≤ (b.buf.length : Int) →
      b.read_primitive off t = .ok (leSpecValue b.buf (b.offset + off).toNat t)) := by
  constructor
  · intro h
    simp only [Blob.read_primitive]
    rw [if_neg (by omega : ¬ b.offset + off < 0), if_pos (Or.inr (by omega))]
  · intro h
    simp only [Blob.read_primitive]
    rw [if_neg (by omega : ¬ b.offset + off < 0), if_neg (by omega)]
    have hval : leNat ((b.buf.drop (b.offset + off).toNat).take t.width) =
        ∑ i in Finset.range t.width,
          (b.buf.getD ((b.offset + off).toNat + i) 0).val * 256 ^ i :=
      leNat_drop_take b.buf t.width (b.offset + off).toNat (by omega)
    simp only [decodePrim, leSpecValue, hval]

/-- Witness for C2: an in-bounds 16-bit read returning 513 = 0x0201 and an
out-of-range one failing with `BoundsError`. -/
theorem read_primitive_bounds_check_witness :
    primBlob.read_primitive 0 Types.int16 = Except.ok 513 ∧
    primBlob.read_primitive 3 Types.int16 = Except.error .boundsError := by
  constructor
  · have h := (read_primitive_bounds_check primBlob 0 Types.int16 (by decide)).2 (by decide)
    rw [h]; rfl
  · exact (read_primitive_bounds_check primBlob 3 Types.int16 (by decide)).1 (by decide)

/-- C3 counterexample: the claim quantifies over every raw element count
`N`, but at `N = 0` (and also for a body truncated by the end of the
buffer) both the text and the data read return the empty sequence, so
the data result is not one byte longer than the text result. -/
theorem text_data_length_counterexample :
    emptyTextBlob.deref_ptrlist 0 = Except.ok (some (8, 2, 0)) ∧
    ¬ (∃ t d : List Byte,
        emptyTextBlob.read_string 0 = Except.ok (some t) ∧
        emptyTextBlob.read_data 0 = Except.ok (some d) ∧
        d.length = t.length + 1) ∧
    truncatedTextBlob.deref_ptrlist 0 = Except.ok (some (8, 2, 2)) ∧
    ¬ (∃ t d : List Byte,
        truncatedTextBlob.read_string 0 = Except.ok (some t) ∧
        truncatedTextBlob.read_data 0 = Except.ok (some d) ∧
        d.length = t.length + 1) := by
  refine ⟨by decide, ?_, by decide, ?_⟩
  · rintro ⟨t, d, ht, hd, hl⟩
    have h1 : t = [] :=
      (Option.some.inj (Except.ok.inj
        ((by decide : emptyTextBlob.read_string 0 =
          Except.ok (some ([] : List Byte))).symm.trans ht))).symm
    have h2 : d = [] :=
      (Option.some.inj (Except.ok.inj
        ((by decide : emptyTextBlob.read_data 0 =
          Except.ok (some ([] : List Byte))).symm.trans hd))).symm
    rw [h1, h2] at hl
    simp at hl
  · rintro ⟨t, d, ht, hd, hl⟩
    have h1 : t = [] :=
      (Option.some.inj (Except.ok.inj
        ((by decide : truncatedTextBlob.read_string 0 =
          Except.ok (some ([] : List Byte))).symm.trans ht))).symm
    have h2 : d = [] :=
      (Option.some.inj (Except.ok.inj
        ((by decide : truncatedTextBlob.read_data 0 =
          Except.ok (some ([] : List Byte))).symm.trans hd))).symm
    rw [h1, h2] at hl
    simp at hl

/-- C3 (amended): for every non-null one-byte-element list of raw element
count `N ≥ 1` whose body lies inside the buffer, the text read returns
exactly the first `N - 1` bytes of the list body (dropping the trailing
NUL terminator), the data read returns all `N` body bytes, and the data
result is exactly one byte longer than the text result. -/
theorem text_data_length_amended (b : Blob) (off o : Int) (cnt : Nat)
    (hd : b.deref_ptrlist off = Except.ok (some (o, 2, cnt)))
    (h1 : 1 ≤ cnt)
    (hs : 0 ≤ b.offset + o)
    (hb : b.offset + o + (cnt : Int) ≤ (b.buf.length : Int)) :
    b.read_string off =
      .ok (some (((b.buf.drop (b.offset + o).toNat).take cnt).take (cnt - 1))) ∧
    b.read_data off = .ok (some ((b.buf.drop (b.offset + o).toNat).take cnt)) ∧
    ((b.buf.drop (b.offset + o).toNat).take cnt).length =
      (((b.buf.drop (b.offset + o).toNat).take cnt).take (cnt - 1)).length + 1 := by
  refine ⟨?_, ?_, ?_⟩
  · simp only [Blob.read_string, hd, if_true]
    rw [pySlice_of_bounds b.buf _ _ hs (by omega) (by omega)]
    rw [List.take_take]
    have he : (b.offset + o + (cnt : Int) - 1 - (b.offset + o)).toNat = cnt - 1 := by
      omega
    rw [he, min_eq_left (by omega)]
  · simp only [Blob.read_data, hd, if_true]
    rw [pySlice_of_bounds b.buf _ _ hs (by omega) (by omega)]
    have he : (b.offset + o + (cnt : Int) - (b.offset + o)).toNat = cnt := by omega
    rw [he]
  · simp only [List.length_take, List.length_drop]
    omega

/-- Witness for C3 (amended): the list `"hi\x00"` of raw count 3 yields
text `"hi"` and data of length 3. -/
theorem text_data_length_amended_witness :
    textBlob.read_string 0 = Except.ok (some [104, 105]) ∧
    textBlob.read_data 0 = Except.ok (some [104, 105, 0]) := by
  have h := text_data_length_amended textBlob 0 8 3
    (by decide) (by decide) (by decide) (by decide)
  refine ⟨?_, ?_⟩
  · rw [h.1]; rfl
  · rw [h.2.1]; rfl

/-- C4 counterexample: `_follow_generic_pointer` does not resolve far
indirection.  At a far pointer whose landing pad holds a struct pointer
(so the far-resolving struct-deref path succeeds on the very same
pointer), the generic follow fails with `DecodeError` instead of
returning a struct accessor. -/
theorem follow_generic_far_counterexample :
    farBlob.read_ptr 0 = Except.ok 10 ∧
    ptrKind (toU64 10) = 2 ∧
    farBlob.deref_ptrstruct 0 = Except.ok (some 16) ∧
    farBlob.follow_generic_pointer 0 = Except.error .decodeError :=
  ⟨by decide, by decide, by decide, by decide⟩

/-- C4 (amended): for every non-null pointer followed generically, no far
resolution is performed: dispatch is on the pointer's own kind bits —
a struct pointer yields a generic `StructAccessor` sized from the
pointer's data/pointer word counts, a list pointer yields a generic
`ListAccessor` carrying the pointer's size tag and item count, and any
other kind (far pointers included) fails with `DecodeError`. -/
theorem follow_generic_dispatch (b : Blob) (off w : Int)
    (h : b.read_ptr off = Except.ok w) (hnz : w ≠ 0) :
    (ptrKind (toU64 w) = 0 →
      b.offset + ptrDeref off (toU64 w) < (b.buf.length : Int) →
      b.follow_generic_pointer off = Except.ok (some (.structRef
        ⟨b.buf, b.offset + ptrDeref off (toU64 w), b.segs,
         structDataSize (toU64 w), structPtrsSize (toU64 w)⟩))) ∧
    (ptrKind (toU64 w) = 1 →
      b.offset + ptrDeref off (toU64 w) < (b.buf.length : Int) →
      b.follow_generic_pointer off = Except.ok (some (.listRef
        ⟨b.buf, b.offset + ptrDeref off (toU64 w), b.segs,
         listSizeTag (toU64 w), listItemCount (toU64 w)⟩))) ∧
    (2 ≤ ptrKind (toU64 w) →
      b.follow_generic_pointer off = Except.error .decodeError) := by
  refine ⟨?_, ?_, ?_⟩
  · intro hk hbnd
    simp only [Blob.follow_generic_pointer, h]
    rw [if_neg hnz, if_pos hk]
    simp [GenericStruct.from_buffer_and_size, hbnd]
  · intro hk hbnd
    simp only [Blob.follow_generic_pointer, h]
    rw [if_neg hnz, if_neg (by omega), if_pos hk]
    simp [CapList.from_buffer, hbnd]
  · intro hk
    simp only [Blob.follow_generic_pointer, h]
    rw [if_neg hnz, if_neg (by omega), if_neg (by omega)]

/-- Witness for C4 (amended): a plain struct pointer followed generically
yields the generic struct accessor sized from the pointer itself. -/
theorem follow_generic_dispatch_witness :
    structPtrBlob.follow_generic_pointer 0 =
      Except.ok (some (.structRef ⟨structPtrBlob.buf, 8, [], 1, 0⟩)) := by
  have h := (follow_generic_dispatch structPtrBlob 0 4294967296
    (by decide) (by decide)).1 (by decide) (by decide)
  rw [h]; rfl

/-- C5: a text or data read whose dereferenced non-null list has a size
tag other than one-byte elements (tag 2) fails with `TypeMismatchError`
and returns no byte sequence. -/
theorem text_data_type_mismatch (b : Blob) (off o : Int) (tag cnt : Nat)
    (hd : b.deref_ptrlist off = Except.ok (some (o, tag, cnt))) (ht : tag ≠ 2) :
    b.read_string off = .error .typeMismatchError ∧
    b.read_data off = .error .typeMismatchError := by
  constructor <;> simp [Blob.read_string, Blob.read_data, hd, ht]

/-- Witness for C5: a list pointer with size tag 5 (eight-byte
elements). -/
theorem text_data_type_mismatch_witness :
    wrongTagBlob.read_string 0 = Except.error .typeMismatchError ∧
    wrongTagBlob.read_data 0 = Except.error .typeMismatchError :=
  text_data_type_mismatch wrongTagBlob 0 8 5 1 (by decide) (by decide)

/-- C6: accessor construction from a `(buffer, offset, segment table)`
triple fails with `BoundsError` when `offset ≥ len(buffer)`, and when
`offset < len(buffer)` it succeeds and stores exactly that buffer,
offset and segment table. -/
theorem from_buffer_bounds (buf : List Byte) (off : Int) (segs : List Int) :
    (off < (buf.length : Int) →
      Blob.from_buffer buf off segs = .ok ⟨buf, off, segs⟩) ∧
    ((buf.length : Int) ≤ off →
      Blob.from_buffer buf off segs = .error .boundsError) := by
  constructor
  · intro h; simp [Blob.from_buffer, h]
  · intro h; simp [Blob.from_buffer, not_lt.mpr h]

/-- Witness for C6: construction succeeds at offset 0 of a one-byte
buffer and fails at offset 1. -/
theorem from_buffer_bounds_witness :
    Blob.from_buffer [0] 0 [] = .ok ⟨[0], 0, []⟩ ∧
    Blob.from_buffer [0] 1 [] = .error .boundsError :=
  ⟨(from_buffer_bounds [0] 0 []).1 (by decide),
   (from_buffer_bounds [0] 1 []).2 (by decide)⟩

/-- C7: the enum read reads the signed 16-bit little-endian value at the
given offset and always completes, handing the raw code to the
caller-supplied mapping; an out-of-range code is never a decode failure
of this operation (the code is always in `[-32768, 32768)` and is
returned as such). -/
theorem read_enum_yields_code {α : Type} (b : Blob) (off : Int)
    (enumtype : Int → α) (v : Int)
    (h : b.read_primitive off Types.int16 = Except.ok v) :
    b.read_enum off enumtype = Except.ok (enumtype v) ∧
    -32768 ≤ v ∧ v < 32768 := by
  refine ⟨by simp [Blob.read_enum, h], ?_⟩
  have hw : Types.int16.width ≤ 2 := by norm_num [Types.int16]
  simp only [Blob.read_primitive] at h
  split at h <;> split at h <;>
    first
      | exact Except.noConfusion h
      | (rw [← Except.ok.inj h]
         exact decodePrim_int16_range _ (le_trans (List.length_take_le _ _) hw))

/-- Witness for C7: the code `-32768` (no enum names it) is read and
returned unchanged through the identity mapping. -/
theorem read_enum_yields_code_witness :
    enumBlob.read_enum 0 idEnum = Except.ok (-32768) ∧
    (-32768 : Int) ≤ -32768 ∧ (-32768 : Int) < 32768 :=
  ⟨(read_enum_yields_code enumBlob 0 idEnum (-32768) (by decide)).1,
   (read_enum_yields_code enumBlob 0 idEnum (-32768) (by decide)).2⟩

/-- C8: the group read returns an accessor aliasing exactly the same
buffer, the same absolute byte offset and the same segment table as the
enclosing accessor — no pointer indirection and no offset arithmetic. -/
theorem read_group_aliases (b : Blob) (h : b.offset < (b.buf.length : Int)) :
    b.read_group = Except.ok ⟨b.buf, b.offset, b.segs⟩ := by
  simp [Blob.read_group, Blob.from_buffer, h]

/-- Witness for C8: a concrete accessor whose group view repeats its
triple exactly. -/
theorem read_group_aliases_witness :
    groupBlob.offset < (groupBlob.buf.length : Int) ∧
    groupBlob.read_group =
      Except.ok ⟨groupBlob.buf, groupBlob.offset, groupBlob.segs⟩ :=
  ⟨by decide, read_group_aliases groupBlob (by decide)⟩

/-- C9: every accessor produced by a struct read, a list read, a group
read or a generic pointer follow holds the identical buffer and the
identical segment table as the accessor it was derived from — stated as
an independent universal for each of the four operations. -/
theorem derived_accessors_share_buffer (b : Blob) :
    (∀ (off : Int) (nb : Blob), b.read_struct off = Except.ok (some nb) →
      nb.buf = b.buf ∧ nb.segs = b.segs) ∧
    (∀ (off : Int) (lb : CapList), b.read_list off = Except.ok (some lb) →
      lb.buf = b.buf ∧ lb.segs = b.segs) ∧
    (∀ gb : Blob, b.read_group = Except.ok gb →
      gb.buf = b.buf ∧ gb.segs = b.segs) ∧
    (∀ (off : Int) (gr : GenericRef),
      b.follow_generic_pointer off = Except.ok (some gr) →
      gr.bufOf = b.buf ∧ gr.segsOf = b.segs) := by
  refine ⟨?_, ?_, ?_, ?_⟩
  · intro o1 nb h1
    unfold Blob.read_struct at h1
    cases hds : b.deref_ptrstruct o1 with
    | error e =>
      rw [hds] at h1
      exact Except.noConfusion h1
    | ok oo =>
      rw [hds] at h1
      cases oo with
      | none => exact Option.noConfusion (Except.ok.inj h1)
      | some so =>
        replace h1 : (match Blob.from_buffer b.buf (b.offset + so) b.segs with
          | Except.error e => Except.error e
          | Except.ok nbr => Except.ok (some nbr)) = Except.ok (some nb) := h1
        cases hfb : Blob.from_buffer b.buf (b.offset + so) b.segs with
        | error e =>
          rw [hfb] at h1
          exact Except.noConfusion h1
        | ok nb2 =>
          rw [hfb] at h1
          have hq : nb2 = nb := Option.some.inj (Except.ok.inj h1)
          rw [← hq, blob_from_buffer_inv hfb]
          exact ⟨rfl, rfl⟩
  · intro o2 lb h2
    unfold Blob.read_list at h2
    cases hds : b.deref_ptrlist o2 with
    | error e =>
      rw [hds] at h2
      exact Except.noConfusion h2
    | ok oo =>
      rw [hds] at h2
      cases oo with
      | none => exact Option.noConfusion (Except.ok.inj h2)
      | some tri =>
        obtain ⟨o, st, ic⟩ := tri
        replace h2 : (match CapList.from_buffer b.buf (b.offset + o) b.segs st ic with
          | Except.error e => Except.error e
          | Except.ok lr => Except.ok (some lr)) = Except.ok (some lb) := h2
        cases hfb : CapList.from_buffer b.buf (b.offset + o) b.segs st ic with
        | error e =>
          rw [hfb] at h2
          exact Except.noConfusion h2
        | ok lb2 =>
          rw [hfb] at h2
          have hq : lb2 = lb := Option.some.inj (Except.ok.inj h2)
          rw [← hq, caplist_from_buffer_inv hfb]
          exact ⟨rfl, rfl⟩
  · intro gb h3
    rw [blob_from_buffer_inv h3]
    exact ⟨rfl, rfl⟩
  · intro o4 gr h4
    unfold Blob.follow_generic_pointer at h4
    cases hrp : b.read_ptr o4 with
    | error e =>
      rw [hrp] at h4
      exact Except.noConfusion h4
    | ok w =>
      simp only [hrp] at h4
      by_cases hw : w = 0
      · rw [if_pos hw] at h4
        exact Option.noConfusion (Except.ok.inj h4)
      · rw [if_neg hw] at h4
        by_cases hk0 : ptrKind (toU64 w) = 0
        · rw [if_pos hk0] at h4
          cases hgs : GenericStruct.from_buffer_and_size b.buf
              (b.offset + ptrDeref o4 (toU64 w)) b.segs
              (structDataSize (toU64 w)) (structPtrsSize (toU64 w)) with
          | error e =>
            rw [hgs] at h4
            exact Except.noConfusion h4
          | ok g =>
            rw [hgs] at h4
            have hq : GenericRef.structRef g = gr :=
              Option.some.inj (Except.ok.inj h4)
            rw [← hq, genstruct_from_buffer_inv hgs]
            exact ⟨rfl, rfl⟩
        · rw [if_neg hk0] at h4
          by_cases hk1 : ptrKind (toU64 w) = 1
          · rw [if_pos hk1] at h4
            cases hcl : CapList.from_buffer b.buf
                (b.offset + ptrDeref o4 (toU64 w)) b.segs
                (listSizeTag (toU64 w)) (listItemCount (toU64 w)) with
            | error e =>
              rw [hcl] at h4
              exact Except.noConfusion h4
            | ok l =>
              rw [hcl] at h4
              have hq : GenericRef.listRef l = gr :=
                Option.some.inj (Except.ok.inj h4)
              rw [← hq, caplist_from_buffer_inv hcl]
              exact ⟨rfl, rfl⟩
          · rw [if_neg hk1] at h4
            exact Except.noConfusion h4

/-- Witness for C9: a blob with a struct field, a list field and a
generic pointer, each derived accessor repeating the buffer and segment
table. -/
theorem derived_accessors_share_buffer_witness :
    multiBlob.read_struct 0 = Except.ok (some ⟨multiBuf, 8, []⟩) ∧
    multiBlob.read_list 8 = Except.ok (some ⟨multiBuf, 16, [], 2, 1⟩) ∧
    multiBlob.read_group = Except.ok ⟨multiBuf, 0, []⟩ ∧
    multiBlob.follow_generic_pointer 16 =
      Except.ok (some (.structRef ⟨multiBuf, 24, [], 1, 0⟩)) ∧
    (((⟨multiBuf, 8, []⟩ : Blob).buf = multiBlob.buf ∧
      (⟨multiBuf, 8, []⟩ : Blob).segs = multiBlob.segs) ∧
     ((⟨multiBuf, 16, [], 2, 1⟩ : CapList).buf = multiBlob.buf ∧
      (⟨multiBuf, 16, [], 2, 1⟩ : CapList).segs = multiBlob.segs) ∧
     ((⟨multiBuf, 0, []⟩ : Blob).buf = multiBlob.buf ∧
      (⟨multiBuf, 0, []⟩ : Blob).segs = multiBlob.segs) ∧
     ((GenericRef.structRef ⟨multiBuf, 24, [], 1, 0⟩).bufOf = multiBlob.buf ∧
      (GenericRef.structRef ⟨multiBuf, 24, [], 1, 0⟩).segsOf = multiBlob.segs)) :=
  ⟨by decide, by decide, by decide, by decide,
   (derived_accessors_share_buffer multiBlob).1 0 ⟨multiBuf, 8, []⟩ (by decide),
   (derived_accessors_share_buffer multiBlob).2.1 8 ⟨multiBuf, 16, [], 2, 1⟩
     (by decide),
   (derived_accessors_share_buffer multiBlob).2.2.1 ⟨multiBuf, 0, []⟩ (by decide),
   (derived_accessors_share_buffer multiBlob).2.2.2 16
     (.structRef ⟨multiBuf, 24, [], 1, 0⟩) (by decide)⟩

/-- C10 counterexample: when the dereferenced empty one-byte list's body
starts at absolute offset 0, the Python slice `buf[0:-1]` wraps around
and the text read returns a non-empty sequence, not the empty one. -/
theorem text_empty_list_counterexample :
    wrapSliceBlob.deref_ptrlist 0 = Except.ok (some (0, 2, 0)) ∧
    wrapSliceBlob.read_string 0 =
      Except.ok (some [253, 255, 255, 255, 2, 0, 0]) ∧
    wrapSliceBlob.read_string 0 ≠ Except.ok (some ([] : List Byte)) :=
  ⟨by decide, by decide, by decide⟩

/-- C10 (amended): a text read whose dereferenced non-null one-byte
element list has raw element count zero returns the empty byte sequence
rather than failing — provided the list body starts at a positive
absolute offset (at offset exactly 0, Python's negative-index slicing
returns `buf[0:len-1]` instead). -/
theorem text_empty_list_amended (b : Blob) (off o : Int)
    (hd : b.deref_ptrlist off = Except.ok (some (o, 2, 0)))
    (hs : 1 ≤ b.offset + o) :
    b.read_string off = Except.ok (some ([] : List Byte)) := by
  simp only [Blob.read_string, hd, if_true]
  rw [pySlice_empty b.buf _ _ (by omega) (by omega)]

/-- Witness for C10 (amended): an empty one-byte list whose body starts
at offset 8 yields the empty text. -/
theorem text_empty_list_amended_witness :
    emptyTextBlob.read_string 0 = Except.ok (some ([] : List Byte)) :=
  text_empty_list_amended emptyTextBlob 0 8 (by decide) (by decide)
